import Mathlib

/-!
Verification of the Text2SQL repository: a shallow embedding, in Lean 4, of the
prompt-construction and response-handling pipeline found in `src/main.py`,
`src/prompts/`, `src/reasoning/` and `src/utils/`, together with proofs of the
behavioural properties stated for it.

The remote LLM service, the file system and the SQLite database are modelled as
explicit parameters (outcome values) handed to the embedded functions; raised
Python exceptions are modelled with `Except PyExc`.
-/

/-- Python exceptions that the embedded code can raise or catch.
`apiError` stands for `openai.APIError` and its subclasses (transport,
authentication and schema-validation failures), carrying `str(e)`. -/
inductive PyExc where
  | valueError
  | attributeError
  | operationalError
  | unboundLocalError
  | apiError (detail : String)
deriving DecidableEq, Repr

/-- Characters treated as whitespace by Python's `str.strip()`. -/
def pyIsSpace (c : Char) : Bool :=
  c = ' ' || c = '\t' || c = '\n' || c = '\x0d' || c = '\x0b' || c = '\x0c'

/-- Embeds Python's `str.strip()`: removes whitespace from both ends. -/
def pyStrip (s : String) : String :=
  ⟨((s.data.dropWhile pyIsSpace).reverse.dropWhile pyIsSpace).reverse⟩

/-- Embeds Python's `str.lower()` (the pipeline only feeds it ASCII SQL text,
on which per-character lowering agrees with Python). -/
def pyLower (s : String) : String :=
  ⟨s.data.map Char.toLower⟩

/-- Embeds Python's `str.startswith(p)`. -/
def pyStartsWith (p s : String) : Bool :=
  p.data.isPrefixOf s.data

/-- Whether `sep` occurs as a contiguous run inside `s` (Python's `sep in s`). -/
def occursIn (sep : List Char) : List Char → Bool
  | [] => sep.isPrefixOf ([] : List Char)
  | c :: cs => sep.isPrefixOf (c :: cs) || occursIn sep cs

/-- Splits at the first occurrence of `sep`, returning the parts before and
after it; `none` when `sep` does not occur.  This is the semantics of Python's
`s.split(sep, 1)` when the result is unpacked into two variables (`none`
standing for the `ValueError` raised when there is nothing to split on). -/
def splitFirst (sep : List Char) : List Char → Option (List Char × List Char)
  | [] => if sep.isPrefixOf ([] : List Char) then some ([], []) else none
  | c :: cs =>
    if sep.isPrefixOf (c :: cs) then some ([], (c :: cs).drop sep.length)
    else
      match splitFirst sep cs with
      | none => none
      | some (a, b) => some (c :: a, b)

/-- Embeds `a, b = s.split(sep, 1)`: the parts before and after the first
occurrence of `sep`, or `none` for the `ValueError` when `sep` is absent. -/
def pySplitOnce (sep s : String) : Option (String × String) :=
  match splitFirst sep.data s.data with
  | none => none
  | some (a, b) => some (⟨a⟩, ⟨b⟩)

/-- Embeds `a, b = s.split(sep)`: succeeds exactly when `sep` occurs exactly
once (otherwise Python's unpacking raises `ValueError`, modelled as `none`). -/
def pySplitPair (sep s : String) : Option (String × String) :=
  match splitFirst sep.data s.data with
  | none => none
  | some (a, b) => if occursIn sep.data b then none else some (⟨a⟩, ⟨b⟩)

example : pySplitOnce "? " "How many orders? [integer: count]" =
    some ("How many orders", "[integer: count]") := by decide

example : pySplitOnce "? " "no separator here" = none := by decide

example : pySplitPair ":" "[integer: count]" = some ("[integer", " count]") := by decide

example : pySplitPair ":" "a:b:c" = none := by decide

example : pySplitPair ":" "no colon" = none := by decide

example : pyStrip "  SELECT 1  \n" = "SELECT 1" := by decide

example : pyLower "SELECT" = "select" := by decide

/-- A chat message as built in `src/main.py` and `src/reasoning/openai_client.py`:
`{"role": ..., "content": ...}`. -/
structure PromptMessage where
  role : String
  content : String
deriving DecidableEq, Repr

/-- `src/prompts/base.py`, class `FewShotExample`: a question/answer pair. -/
structure FewShotExample where
  input : String
  output : String
deriving DecidableEq, Repr

/-- `src/prompts/base.py`, `FewShotExample.render`. -/
def FewShotExample.render (e : FewShotExample) : String :=
  "User: " ++ e.input ++ "\nAssistant: " ++ e.output ++ "\n"

/-- `src/reasoning/response_fromatter.py`, class `Step`. -/
structure Step where
  explanation : String
  output : String
deriving DecidableEq, Repr

/-- `src/reasoning/response_fromatter.py`, class `QueryProcessor`: the structured
result shape of the category-expansion call. -/
structure QueryProcessor where
  query : String
  expanded_query : String
  explanation : String
deriving DecidableEq, Repr

/-- The literal text of the `src/main.py` `system_prompt` f-string
(lines 56-86) that precedes the interpolated `{schema}`. -/
def mainSysPre : String :=
  "\n        You are an expert in SQL, SQLite databases, and data analysis."
  ++ "\n        You work as a Data Analyst in an **E-commerce Analytics Team**.\n"
  ++ "\n        ### **Your Role**"
  ++ "\n            Your job is to generate **accurate, optimized, and executable SQL queries** "
  ++ "\n            to answer user questions based on the provided database schema.\n"
  ++ "\n        ### **SQL Query Guidelines**"
  ++ "\n            - **Use only tables and columns defined in the schema.**"
  ++ "\n            - **Do NOT assume relationships unless explicitly defined.**"
  ++ "\n            - **If a table/column does not exist, respond with:** `\"SQL query cannot be written for this.\"`"
  ++ "\n            - **Ensure queries are compatible with SQLite (no unsupported functions).**"
  ++ "\n            - **Avoid `SELECT *`, select only necessary columns when required.**"
  ++ "\n            - **Use joins and filtering effectively for performance.**"
  ++ "\n            - **For aggregation queries:**"
  ++ "\n                - Use `COUNT(*)` for counts."
  ++ "\n                - Use `SUM(column_name)` for summing."
  ++ "\n                - Use `HAVING` for filtering aggregates."
  ++ "\n                - Use nested queries for advanced aggregation."
  ++ "\n            - **Do not generate queries that modify data** (`DELETE`, `UPDATE`, `DROP` are prohibited).\n"
  ++ "\n        ### **Expected Response Format**"
  ++ "\n            - **Return only the SQL query as raw text without Markdown formatting**."
  ++ "\n            - The query should be **fully executable** in SQLite.\n"
  ++ "\n        ### Database schema is attached below. Note the relationships between invoices, customers and services."
  ++ "\n            ```mermaid"
  ++ "\n            "

/-- The literal text of the `src/main.py` `system_prompt` f-string after the
interpolated `{schema}`. -/
def mainSysSuf : String := "\n            ```\n        "

/-- `src/main.py`, lines 56-86: the `system_prompt` f-string with the schema
interpolated into it. -/
def main_system_prompt (schema : String) : String :=
  mainSysPre ++ schema ++ mainSysSuf

/-- The literal text of the `src/main.py` `user_prompt` f-string (lines 88-95)
before the interpolated `{query_text}`; it ends with the opening quote placed
around the user question. -/
def userQPre : String :=
  "\n        ## Generate a SQL query to answer the following question:"
  ++ "\n        ### **User Question**"
  ++ "\n            \""

/-- The literal text of the `user_prompt` f-string between `{query_text}` and
`{column_name}`; it begins with the closing quote around the user question. -/
def userQSuf : String :=
  "\"\n        ### **Expected Output**"
  ++ "\n            - **Ensure that the query returns column `"

/-- The literal text of the `user_prompt` f-string between `{column_name}` and
`{column_type}`. -/
def userTypeMid : String := "` of type `"

/-- The literal text of the `user_prompt` f-string after `{column_type}`. -/
def userSuf : String :=
  "`.**\n            - **Do NOT include Markdown formatting, code block, backticks, or explanations** in the response."
  ++ "\n        "

/-- `src/main.py`, lines 88-95: the `user_prompt` f-string with `query_text`,
`column_name` and `column_type` interpolated into it. -/
def main_user_prompt (query_text column_name column_type : String) : String :=
  userQPre ++ query_text ++ userQSuf ++ column_name ++ userTypeMid ++ column_type ++ userSuf

/-- The literal text of the `SystemPrompt.to_prompt` f-string
(`src/prompts/prompt.py`, lines 40-81) preceding the interpolated
`{self.db_schema}`. -/
def toPromptPre : String :=
  "\n        You are an expert in SQL, SQLite databases, and data analysis."
  ++ "\n        You work as a Data Analyst in an **E-commerce Analytics Team**.\n"
  ++ "\n        ### **Your Role**"
  ++ "\n            Your job is to generate **accurate, optimized, and executable SQL queries** "
  ++ "\n            to answer user questions based on the provided database schema.\n"
  ++ "\n        ### **SQL Query Guidelines**"
  ++ "\n            - Return only **the exact output format** as expected in the question."
  ++ "\n            - **Do not include extra columns** unless explicitly asked."
  ++ "\n            - For **percentage calculations**, round results to **2 decimal places**."
  ++ "\n            - For **string outputs**, return only the requested value (no extra info)."
  ++ "\n            - For **counts/sums**, ensure correct aggregation and filtering."
  ++ "\n            - **Use only tables and columns defined in the schema.**"
  ++ "\n            - **Do NOT assume relationships unless explicitly defined.**"
  ++ "\n            - **If a table/column does not exist, respond with:** `\"SQL query cannot be written for this.\"`"
  ++ "\n            - **Ensure queries are compatible with SQLite (no unsupported functions).**"
  ++ "\n            - **Avoid `SELECT *`, select only necessary columns when required.**"
  ++ "\n            - **Use joins and filtering effectively for performance.**"
  ++ "\n            - **For aggregation queries:**"
  ++ "\n                - Use `COUNT(*)` for counts."
  ++ "\n                - Use `SUM(column_name)` for summing."
  ++ "\n                - Use `HAVING` for filtering aggregates."
  ++ "\n            - **Use nested queries for advanced aggregation.**"
  ++ "\n            - **Do not generate queries that modify data** (`DELETE`, `UPDATE`, `DROP` are prohibited).\n"
  ++ "\n        ### **Expected Response Format**"
  ++ "\n            - **Return only the SQL query as raw text without Markdown formatting**."
  ++ "\n            - The query should be **fully executable** in SQLite.\n"
  ++ "\n        ### Database schema is attached below. Note the relationships between invoices, customers and services."
  ++ "\n            ```mermaid"
  ++ "\n            "

/-- The literal text of the `to_prompt` f-string between `{self.db_schema}` and
the interpolated `{portugese_category_translation}`. -/
def toPromptMid : String :=
  "\n            ```"
  ++ "\n        ### **Product Category Translation**"
  ++ "\n            If there are product category translations in "

/-- The literal text of the `to_prompt` f-string between
`{portugese_category_translation}` and `{few_shot_examples}`. -/
def toPromptAfterHint : String :=
  ",\n            then use the exact Portuguese name in the SQL query."
  ++ "\n        ---"
  ++ "\n        ### **Here are some examples**: "
  ++ "\n            "

/-- The literal text of the `to_prompt` f-string after `{few_shot_examples}`. -/
def toPromptEnd : String := "\n        "

/-- `src/prompts/prompt.py`, `SystemPrompt.to_prompt` (lines 28-81): joins the
rendered examples with newlines and interpolates the schema, the category
translation hint and the examples into the fixed template. -/
def SystemPrompt_to_prompt (examples : List FewShotExample) (db_schema : String)
    (portugese_category_translation : String) : String :=
  let few_shot_examples := String.intercalate "\n" (examples.map FewShotExample.render)
  toPromptPre ++ db_schema ++ toPromptMid ++ portugese_category_translation
    ++ toPromptAfterHint ++ few_shot_examples ++ toPromptEnd

/-- `src/prompts/prompt.py`, `DefineFewShotExamples.get_few_shot_prompts`
(lines 123-183): the fixed, hardcoded list of four few-shot examples.  The
`Unit` argument stands for one invocation of the method. -/
def get_few_shot_prompts (_ : Unit) : List FewShotExample :=
  [ { input := "How many customers have placed orders worth more than $5000 in total?",
      output := "```sql"
        ++ "\n                SELECT COUNT(*) AS high_value_customers"
        ++ "\n                FROM ("
        ++ "\n                    SELECT o.customer_id, SUM(oi.price) AS total_spent"
        ++ "\n                    FROM orders o"
        ++ "\n                    JOIN order_items oi ON o.order_id = oi.order_id"
        ++ "\n                    GROUP BY o.customer_id"
        ++ "\n                    HAVING total_spent > 5000"
        ++ "\n                ) AS customer_totals;"
        ++ "\n                ```" },
    { input := "Which seller has the highest number of orders delivered to Rio de Janeiro?",
      output := "```sql"
        ++ "\n                SELECT s.seller_id"
        ++ "\n                FROM sellers s"
        ++ "\n                JOIN order_items oi ON s.seller_id = oi.seller_id"
        ++ "\n                JOIN orders o ON oi.order_id = o.order_id"
        ++ "\n                JOIN customers c ON o.customer_id = c.customer_id"
        ++ "\n                WHERE c.customer_city = \x27rio de janeiro\x27"
        ++ "\n                    AND o.order_status = \x27delivered\x27"
        ++ "\n                GROUP BY s.seller_id"
        ++ "\n                ORDER BY COUNT(DISTINCT o.order_id) DESC"
        ++ "\n                LIMIT 1;"
        ++ "\n                ```" },
    { input := "What is the most expensive product category based on average price?",
      output := "```sql"
        ++ "\n                SELECT "
        ++ "\n                    p.product_category_name"
        ++ "\n                FROM products p"
        ++ "\n                JOIN order_items oi ON p.product_id = oi.product_id"
        ++ "\n                GROUP BY p.product_category_name"
        ++ "\n                HAVING COUNT(*) > 10"
        ++ "\n                ORDER BY AVG(oi.price) DESC"
        ++ "\n                LIMIT 1;"
        ++ "\n                ```" },
    { input := "Which city has the highest average freight value per order?",
      output := "```sql"
        ++ "\n                SELECT "
        ++ "\n                    c.customer_city"
        ++ "\n                FROM customers c"
        ++ "\n                JOIN orders o ON c.customer_id = o.customer_id"
        ++ "\n                JOIN order_items oi ON o.order_id = oi.order_id"
        ++ "\n                GROUP BY c.customer_city"
        ++ "\n                HAVING COUNT(DISTINCT o.order_id) > 50"
        ++ "\n                ORDER BY AVG(oi.freight_value) DESC"
        ++ "\n                LIMIT 1;```" } ]

/-- The outcome of the remote call made inside the `try` block of
`SQLQueryGenerator.generate_sql_query` (`src/main.py`, lines 97-110).
`success content` is a completed call whose `message.content` is the string
`content`; `raises detail` is any exception `e` raised inside the `try` suite
(API errors, missing choices, a `None` content), carrying `str(e)` — the
`except Exception` clause distinguishes nothing finer. -/
inductive MainCallOutcome where
  | success (content : String)
  | raises (detail : String)
deriving DecidableEq, Repr

/-- The check at `src/main.py`, line 105:
`sql_query.lower().startswith(("select", "with"))`. -/
def startsSelectOrWith (sql_query : String) : Bool :=
  pyStartsWith "select" (pyLower sql_query) || pyStartsWith "with" (pyLower sql_query)

/-- The `try` suite of `src/main.py`, lines 97-110, after the remote call has
completed or raised: strip the content, reject text that does not start with
SELECT/WITH, and turn any exception into the string
`f"OpenAI API error : {e}"` (the `except Exception` clause). -/
def main_try_block (o : MainCallOutcome) : String :=
  match o with
  | .success content =>
      let sql_query := pyStrip content
      if startsSelectOrWith sql_query then sql_query
      else "Only SELECT queries are allowed."
  | .raises detail => "OpenAI API error : " ++ detail

/-- `src/main.py`, `SQLQueryGenerator.generate_sql_query` (lines 43-110),
viewed through its returned value.  The two unpacking splits
(`question.split('? ', 1)` and `return_type.split(":")`) happen before the
`try` block, so their `ValueError` propagates to the caller (`Except.error`);
everything inside the `try` block is caught and converted to a string. -/
def generate_sql_query (question schema : String) (o : MainCallOutcome) :
    Except PyExc String :=
  match pySplitOnce "? " question with
  | none => .error .valueError
  | some (_query_text, return_type) =>
    match pySplitPair ":" return_type with
    | none => .error .valueError
    | some (_column_name, _column_type) => .ok (main_try_block o)

/-- `src/main.py`, `SQLQueryGenerator.generate_sql_query` (lines 54-101),
viewed through the two messages it sends to the remote service: the parsed
question is interpolated into the two f-string templates and wrapped as a
system message followed by a user message.  `none` when the unpacking splits
raise before any message is built. -/
def generate_sql_messages (question schema : String) : Option (List PromptMessage) :=
  match pySplitOnce "? " question with
  | none => none
  | some (query_text, return_type) =>
    match pySplitPair ":" return_type with
    | none => none
    | some (column_name, column_type) =>
      some [⟨"system", main_system_prompt schema⟩,
            ⟨"user", main_user_prompt query_text column_name column_type⟩]

/-- A question is valid for `generate_sql_query` when both unpacking splits
succeed: it contains the separator `"? "` and the suffix after the first
`"? "` contains exactly one `":"`. -/
def valid_question (question : String) : Bool :=
  match pySplitOnce "? " question with
  | none => false
  | some (_, return_type) => (pySplitPair ":" return_type).isSome

/-- The value and the emitted error-log lines of one call to
`SchemaLoader.get_schema` (`src/utils/schema_loader.py`, lines 28-40; the
identical `SQLQueryGenerator.get_schema` is at `src/main.py`, lines 29-41). -/
structure SchemaResult where
  value : String
  logs : List String
deriving DecidableEq, Repr

/-- `SchemaLoader.get_schema` / `SQLQueryGenerator.get_schema`: the file system
is modelled as `fs : String → Option String` mapping a path to the contents of
the file it names, `none` when no such file exists (the `FileNotFoundError`
case, which the `except` clause turns into a logged error and `""`). -/
def get_schema (fs : String → Option String) (schema_path : String) : SchemaResult :=
  match fs schema_path with
  | some contents => { value := contents, logs := [] }
  | none => { value := "", logs := ["Schema file not found: " ++ schema_path] }

/-- The value produced by `SchemaLoader.read_product_categories`: the `try`
suite returns a dict comprehension `{row[1]: row[0] for row in ...}` (kept here
as the association list in comprehension order), while the `except` suite
returns the empty *list* `[]`. -/
inductive CategoriesValue where
  | dict (entries : List (String × String))
  | emptyList
deriving DecidableEq, Repr

instance {ε α : Type} [DecidableEq ε] [DecidableEq α] : DecidableEq (Except ε α) :=
  fun a b =>
    match a, b with
    | .error e, .error f => decidable_of_iff (e = f) (by simp)
    | .error _, .ok _ => isFalse (by simp)
    | .ok _, .error _ => isFalse (by simp)
    | .ok x, .ok y => decidable_of_iff (x = y) (by simp)

/-- One call to `SchemaLoader.read_product_categories`
(`src/utils/schema_loader.py`, lines 42-61): the returned value or the
propagated exception, the emitted error-log lines, and whether a database
connection was opened and closed. -/
structure LookupResult where
  result : Except PyExc CategoriesValue
  logs : List String
  connOpened : Bool
  connClosed : Bool
deriving DecidableEq, Repr

/-- How the SQLite layer behaves during `read_product_categories`.
`sqlite3.connect` never raises `FileNotFoundError` (it creates a missing file
and raises `sqlite3.OperationalError` when it cannot open one), but the code
has an `except FileNotFoundError` clause, so that hypothetical outcome is kept
as a case of its own. -/
inductive DbOutcome where
  | connectRaisesOperationalError
  | connectRaisesFileNotFound
  | noSuchTable
  | ok (rows : List (String × String))
deriving DecidableEq, Repr

/-- `src/utils/schema_loader.py`, `SchemaLoader.read_product_categories`
(lines 42-61).  Tracing the `try`/`except FileNotFoundError`/`finally` of the
source on each outcome:

* `connectRaisesOperationalError` — `sqlite3.connect` raises before
  `sqlite3_conn` is bound; the `except` clause does not match, and the
  `finally` clause evaluates `if sqlite3_conn:` on an unbound local, so an
  `UnboundLocalError` replaces the original exception.  Nothing is logged.
* `connectRaisesFileNotFound` — the `except` clause matches, logs, and reaches
  `return []`; the `finally` clause then evaluates `if sqlite3_conn:` on an
  unbound local, so the `UnboundLocalError` discards the pending return.
* `noSuchTable` — the connection is bound; `cursor.execute` raises
  `sqlite3.OperationalError`, which the `except FileNotFoundError` clause does
  not match; the `finally` clause closes the bound connection and the
  `OperationalError` propagates uncaught.  Nothing is logged.
* `ok rows` — the dict `{row[1]: row[0]}` is returned and the `finally` clause
  closes the connection. -/
def read_product_categories (db_path : String) (o : DbOutcome) : LookupResult :=
  match o with
  | .connectRaisesOperationalError =>
      { result := .error .unboundLocalError, logs := [],
        connOpened := false, connClosed := false }
  | .connectRaisesFileNotFound =>
      { result := .error .unboundLocalError,
        logs := ["Database file not found: " ++ db_path],
        connOpened := false, connClosed := false }
  | .noSuchTable =>
      { result := .error .operationalError, logs := [],
        connOpened := true, connClosed := true }
  | .ok rows =>
      { result := .ok (.dict (rows.map fun row => (row.2, row.1))), logs := [],
        connOpened := true, connClosed := true }

/-- The outcome of the remote call inside `OpenAIClient.get_response`
(`src/reasoning/openai_client.py`, lines 84-115).  `success content` is a
completed call whose `message.content` is `content` (`none` models a `None`
content); `apiError detail` is an `openai.APIError` — the base class of the
transport (`APIConnectionError`), authentication (`AuthenticationError`) and
schema-validation (`APIResponseValidationError`) failures — carrying `str(e)`;
`otherError e` is any exception outside that hierarchy. -/
inductive ClientOutcome where
  | success (content : Option String)
  | apiError (detail : String)
  | otherError (e : PyExc)
deriving DecidableEq, Repr

/-- `src/reasoning/openai_client.py`, `OpenAIClient.get_response`
(lines 84-115).  The `try` block strips and returns `message.content` as-is —
the `startswith(("select", "with"))` guard at lines 110-111 is commented out in
the source — and the `except openai.APIError` clause returns
`f"OpenAI API error : {e}"`.  A `None` content makes `.strip()` raise an
`AttributeError` that nothing catches, and exceptions outside `openai.APIError`
propagate. -/
def get_response (o : ClientOutcome) : Except PyExc String :=
  match o with
  | .success (some content) => .ok (pyStrip content)
  | .success none => .error .attributeError
  | .apiError detail => .ok ("OpenAI API error : " ++ detail)
  | .otherError e => .error e

/-- The literal text of the category-expansion `system_prompt` f-string
(`src/reasoning/openai_client.py`, lines 61-68) before the interpolated
`{product_categories}`. -/
def expandSysPre : String :=
  "You are an assistant that maps English Product category names"
  ++ "\n                        to exact Portuguese database category names. "
  ++ "\n                        Database categories include: "

/-- The literal text of the category-expansion `system_prompt` f-string after
`{product_categories}`. -/
def expandSysSuf : String :=
  " where the key"
  ++ "\n                        is the English name and the value is the Portuguese name."
  ++ "\n                        For each English category name, provide the exact Portuguese "
  ++ "\n                        name and explain why."
  ++ "\n                        Respond with \"This query does not contain any product categories to expand.\" "
  ++ "\n                        if there are no product categories in the query."

/-- The literal text of the category-expansion `user_prompt` f-string
(`src/reasoning/openai_client.py`, lines 69-70) before the interpolated
`{query}`. -/
def expandUserPre : String :=
  "Identify the product categories in the query and"
  ++ "\n                        expand them to their exact Portuguese names. \n\nQuery: "

/-- The outcome of the `client.beta.chat.completions.parse` call inside
`OpenAIClient.expand_and_translate_categories`: either a structurally
validated `QueryProcessor`, or a raised exception. -/
inductive ParseOutcome where
  | parsed (qp : QueryProcessor)
  | raises (e : PyExc)
deriving DecidableEq, Repr

/-- One call to `OpenAIClient.expand_and_translate_categories`: the messages
sent, the number of remote calls issued, and the returned value or the
propagated exception. -/
structure ExpandResult where
  messages : List PromptMessage
  calls : Nat
  result : Except PyExc QueryProcessor
deriving DecidableEq, Repr

/-- `src/reasoning/openai_client.py`,
`OpenAIClient.expand_and_translate_categories` (lines 45-82): builds the two
messages (`product_categories` enters the system prompt through `str()` of the
dict, taken here as the already-rendered string), issues exactly one
`parse` call, and returns `response.choices[0].message.parsed`.  The function
body contains no `try`/`except`, so an exception raised by the call
propagates to the caller unchanged. -/
def expand_and_translate_categories (query product_categories : String)
    (o : ParseOutcome) : ExpandResult :=
  { messages := [⟨"system", expandSysPre ++ product_categories ++ expandSysSuf⟩,
                 ⟨"user", expandUserPre ++ query⟩],
    calls := 1,
    result := match o with
      | .parsed qp => .ok qp
      | .raises e => .error e }

/-- Modelled from the spec: the `GenerationResult` consumed by the entry point
(spec section 3).  The structured shape itself is `SQLGenerator` in
`src/reasoning/response_fromatter.py`, but the spec treats its `query` field as
possibly absent, so it is embedded as an `Option`. -/
structure GenerationResult where
  steps : List Step
  query : Option String
deriving DecidableEq, Repr

/-- Modelled from the spec: the extraction step of the entry point
`answer_question` (spec sections 4.5 and 8), which is not present under
`src/` — `src/test.py` imports a `main` that `src/main.py` does not define,
and the sentinel string appears nowhere under `src/`.  On success the caller
extracts `result.query`; an absent or empty field is replaced by the literal
string `"No query found in response"`. -/
def extract_query (r : GenerationResult) : String :=
  match r.query with
  | none => "No query found in response"
  | some q => if q = "" then "No query found in response" else q

/-- Modelled from the spec: the entry point `answer_question` (spec section 6)
viewed from the generation call onward — a failed generation already yields an
error string, a successful one yields a `GenerationResult` whose `query` field
is extracted. -/
def answer_question (gen : Except String GenerationResult) : String :=
  match gen with
  | .error e => e
  | .ok r => extract_query r

theorem str_data_append (s t : String) : (s ++ t).data = s.data ++ t.data := rfl

theorem occursIn_cons {sep : List Char} {c : Char} {cs : List Char}
    (h : occursIn sep (c :: cs) = false) :
    sep.isPrefixOf (c :: cs) = false ∧ occursIn sep cs = false := by
  simpa [occursIn] using h

theorem qmsp_not_prefixOf {c : Char} {t : List Char}
    (h : List.isPrefixOf ['?', ' '] (c :: t) = false) (r : List Char) :
    List.isPrefixOf ['?', ' '] (c :: (t ++ '?' :: ' ' :: r)) = false := by
  cases t with
  | nil => simp [List.isPrefixOf]
  | cons d t' => simpa [List.isPrefixOf] using h

/-- Splitting at the first `"? "` recovers the parts of a string built around
one `"? "` whose left part contains no `"? "`. -/
theorem splitFirst_qmsp (t r : List Char) (h : occursIn ['?', ' '] t = false) :
    splitFirst ['?', ' '] (t ++ '?' :: ' ' :: r) = some (t, r) := by
  induction t with
  | nil => simp [splitFirst, List.isPrefixOf]
  | cons c t ih =>
    obtain ⟨h1, h2⟩ := occursIn_cons h
    have h3 := qmsp_not_prefixOf h1 r
    simp [splitFirst, List.append_eq, h3, ih h2]

theorem colon_not_prefixOf {c : Char} {t : List Char}
    (h : List.isPrefixOf [':'] (c :: t) = false) (r : List Char) :
    List.isPrefixOf [':'] (c :: (t ++ ':' :: r)) = false := by
  simpa [List.isPrefixOf] using h

theorem splitFirst_colon (a b : List Char) (h : occursIn [':'] a = false) :
    splitFirst [':'] (a ++ ':' :: b) = some (a, b) := by
  induction a with
  | nil => simp [splitFirst, List.isPrefixOf]
  | cons c t ih =>
    obtain ⟨h1, h2⟩ := occursIn_cons h
    have h3 := colon_not_prefixOf h1 b
    simp [splitFirst, List.append_eq, h3, ih h2]

/-- `question.split('? ', 1)` on a question of the shape `text? rest` whose
`text` does not itself contain `"? "` yields exactly `(text, rest)`. -/
theorem pySplitOnce_shape (t r : String) (h : occursIn ['?', ' '] t.data = false) :
    pySplitOnce "? " (t ++ "? " ++ r) = some (t, r) := by
  have hd : (t ++ "? " ++ r).data = t.data ++ '?' :: ' ' :: r.data := by
    show (t.data ++ ['?', ' ']) ++ r.data = t.data ++ '?' :: ' ' :: r.data
    simp
  unfold pySplitOnce
  rw [show ("? " : String).data = ['?', ' '] from rfl, hd, splitFirst_qmsp t.data r.data h]

/-- `return_type.split(":")` on a suffix of the shape `name:typ` where neither
part contains a `":"` yields exactly `(name, typ)`. -/
theorem pySplitPair_colon (n ty : String) (hn : occursIn [':'] n.data = false)
    (hty : occursIn [':'] ty.data = false) :
    pySplitPair ":" (n ++ ":" ++ ty) = some (n, ty) := by
  have hd : (n ++ ":" ++ ty).data = n.data ++ ':' :: ty.data := by
    show (n.data ++ [':']) ++ ty.data = n.data ++ ':' :: ty.data
    simp
  unfold pySplitPair
  rw [show (":" : String).data = [':'] from rfl, hd, splitFirst_colon n.data ty.data hn]
  simp [hty]

/-- On a valid question, both unpacking splits succeed and
`generate_sql_query` returns the value of the `try` suite. -/
theorem generate_sql_query_of_valid (question schema : String) (o : MainCallOutcome)
    (h : valid_question question = true) :
    generate_sql_query question schema o = .ok (main_try_block o) := by
  unfold valid_question at h
  cases h1 : pySplitOnce "? " question with
  | none => rw [h1] at h; simp at h
  | some p =>
    obtain ⟨t, rest⟩ := p
    rw [h1] at h
    dsimp only at h
    cases h2 : pySplitPair ":" rest with
    | none => rw [h2] at h; simp at h
    | some q =>
      obtain ⟨n, ty⟩ := q
      unfold generate_sql_query
      simp only [h1, h2]

/-- Every branch of the `try` suite of `generate_sql_query` produces a
non-empty string. -/
theorem main_try_block_ne_empty (o : MainCallOutcome) : main_try_block o ≠ "" := by
  cases o with
  | raises detail =>
    show "OpenAI API error : " ++ detail ≠ ""
    intro he
    have hd : ("OpenAI API error : " ++ detail).data = [] := congrArg String.data he
    rw [str_data_append] at hd
    exact absurd (List.append_eq_nil.mp hd).1 (by decide)
  | success content =>
    show (if startsSelectOrWith (pyStrip content) then pyStrip content
          else "Only SELECT queries are allowed.") ≠ ""
    by_cases h : startsSelectOrWith (pyStrip content) = true
    · rw [if_pos h]
      intro he
      rw [he] at h
      exact absurd h (by decide)
    · rw [if_neg h]
      decide

/-- C1: for every successful generation call, the entry point returns exactly
the `query` field of the structured `GenerationResult`; when that field is
absent or empty, it returns exactly `"No query found in response"`.  (The
extraction step is modelled from the spec, the entry point being absent from
`src/`.) -/
theorem answer_question_returns_query_field (r : GenerationResult) (q : String) :
    (r.query = some q → q ≠ "" → answer_question (Except.ok r) = q) ∧
    (r.query = none ∨ r.query = some "" → answer_question (Except.ok r) = "No query found in response") := by
  constructor
  · intro hq hne
    simp [answer_question, extract_query, hq, hne]
  · rintro (h | h) <;> simp [answer_question, extract_query, h]

theorem answer_question_returns_query_field_witness :
    answer_question (Except.ok ⟨[], some "SELECT 1"⟩) = "SELECT 1" ∧
    answer_question (Except.ok ⟨[], none⟩) = "No query found in response" :=
  ⟨(answer_question_returns_query_field ⟨[], some "SELECT 1"⟩ "SELECT 1").1 rfl (by decide),
   (answer_question_returns_query_field ⟨[], none⟩ "").2 (Or.inl rfl)⟩

/-- C2: on every valid question (one both unpacking splits accept),
`generate_sql_query` returns a non-empty string and never lets an exception
surface, whatever the remote call does. -/
theorem generate_sql_query_total_nonempty (question schema : String)
    (o : MainCallOutcome) (h : valid_question question = true) :
    ∃ s, generate_sql_query question schema o = Except.ok s ∧ s ≠ "" :=
  ⟨main_try_block o, generate_sql_query_of_valid question schema o h,
   main_try_block_ne_empty o⟩

theorem generate_sql_query_total_nonempty_witness :
    valid_question "How many orders are there? [integer: count]" = true ∧
    ∃ s, generate_sql_query "How many orders are there? [integer: count]" "S"
          (MainCallOutcome.success "DROP TABLE orders;") = Except.ok s ∧ s ≠ "" :=
  ⟨by decide,
   generate_sql_query_total_nonempty "How many orders are there? [integer: count]" "S"
     (MainCallOutcome.success "DROP TABLE orders;") (by decide)⟩

/-- C3: evidence for the divergence between `read_product_categories` and the
claimed lookup-failure behaviour.  With the translation table absent the
`sqlite3.OperationalError` propagates uncaught (though the `finally` clause
does close the opened connection), and on the hypothetical
`FileNotFoundError` path the `finally` clause itself raises
`UnboundLocalError`, discarding the pending `return []`; no failure path
returns an empty mapping. -/
theorem read_product_categories_failure_behaviour :
    read_product_categories "db/olist.sqlite" DbOutcome.noSuchTable =
      { result := Except.error PyExc.operationalError, logs := [],
        connOpened := true, connClosed := true } ∧
    read_product_categories "db/olist.sqlite" DbOutcome.connectRaisesFileNotFound =
      { result := Except.error PyExc.unboundLocalError,
        logs := ["Database file not found: db/olist.sqlite"],
        connOpened := false, connClosed := false } := by
  decide

/-- C4: an `openai.APIError` — the base class of the transport, authentication
and schema-validation failures — is caught and surfaced as the string
`"OpenAI API error : <detail>"`, both by `OpenAIClient.get_response` and by
`SQLQueryGenerator.generate_sql_query`; neither lets it raise past its
boundary. -/
theorem get_response_api_error_string (detail question schema : String) :
    get_response (ClientOutcome.apiError detail) =
      Except.ok ("OpenAI API error : " ++ detail) ∧
    (valid_question question = true →
      generate_sql_query question schema (MainCallOutcome.raises detail) =
        Except.ok ("OpenAI API error : " ++ detail)) := by
  refine ⟨rfl, fun h => ?_⟩
  rw [generate_sql_query_of_valid _ _ _ h]
  rfl

theorem get_response_api_error_string_witness :
    valid_question "How many orders are there? [integer: count]" = true ∧
    get_response (ClientOutcome.apiError "timeout") =
      Except.ok ("OpenAI API error : " ++ "timeout") ∧
    generate_sql_query "How many orders are there? [integer: count]" "S"
        (MainCallOutcome.raises "timeout") =
      Except.ok ("OpenAI API error : " ++ "timeout") :=
  ⟨by decide,
   (get_response_api_error_string "timeout" "How many orders are there? [integer: count]" "S").1,
   (get_response_api_error_string "timeout" "How many orders are there? [integer: count]" "S").2
     (by decide)⟩

/-- C5, counterexample: `OpenAIClient.get_response` returns a model response
that does not start with SELECT or WITH unchanged — the guard at
`src/reasoning/openai_client.py`, lines 110-111 is commented out — so the
claim that the query-generation operation rejects such text with
`"Only SELECT queries are allowed."` fails on this operation. -/
theorem get_response_returns_non_select_text :
    startsSelectOrWith "DROP TABLE orders;" = false ∧
    get_response (ClientOutcome.success (some "DROP TABLE orders;")) =
      Except.ok "DROP TABLE orders;" ∧
    "DROP TABLE orders;" ≠ "Only SELECT queries are allowed." := by
  decide

/-- C5, amended: in `SQLQueryGenerator.generate_sql_query` (`src/main.py`,
lines 104-107) the check is active: a stripped model response that does not
start, case-insensitively, with SELECT or WITH is rejected and the fixed
string `"Only SELECT queries are allowed."` is returned instead. -/
theorem main_generate_rejects_non_select (question schema content : String)
    (hq : valid_question question = true)
    (hc : startsSelectOrWith (pyStrip content) = false) :
    generate_sql_query question schema (MainCallOutcome.success content) =
      Except.ok "Only SELECT queries are allowed." := by
  rw [generate_sql_query_of_valid _ _ _ hq]
  show Except.ok (if startsSelectOrWith (pyStrip content) then pyStrip content
    else "Only SELECT queries are allowed.") =
    Except.ok "Only SELECT queries are allowed."
  rw [hc]
  simp

theorem main_generate_rejects_non_select_witness :
    valid_question "How many orders are there? [integer: count]" = true ∧
    startsSelectOrWith (pyStrip "DROP TABLE orders;") = false ∧
    generate_sql_query "How many orders are there? [integer: count]" "S"
        (MainCallOutcome.success "DROP TABLE orders;") =
      Except.ok "Only SELECT queries are allowed." :=
  ⟨by decide, by decide,
   main_generate_rejects_non_select "How many orders are there? [integer: count]" "S"
     "DROP TABLE orders;" (by decide) (by decide)⟩

/-- C6: when the path names no existing file, `get_schema` returns `""`,
emits exactly one error-log entry, and never raises (it is a total function
of the modelled file system). -/
theorem get_schema_missing_file (fs : String → Option String) (schema_path : String)
    (h : fs schema_path = none) :
    get_schema fs schema_path =
      { value := "", logs := ["Schema file not found: " ++ schema_path] } := by
  unfold get_schema
  rw [h]

theorem get_schema_missing_file_witness :
    ((fun _ : String => (none : Option String)) "db/schema.txt" = none) ∧
    get_schema (fun _ : String => (none : Option String)) "db/schema.txt" =
      { value := "", logs := ["Schema file not found: db/schema.txt"] } :=
  ⟨rfl, by
    rw [get_schema_missing_file (fun _ : String => (none : Option String)) "db/schema.txt" rfl]
    decide⟩

/-- C7: for every schema string, example list and category hint, the rendered
system prompt — in both `SystemPrompt.to_prompt` and the `src/main.py`
template — contains the schema verbatim as a contiguous substring. -/
theorem system_prompt_contains_schema (schema hint : String)
    (examples : List FewShotExample) :
    List.IsInfix schema.data (SystemPrompt_to_prompt examples schema hint).data ∧
    List.IsInfix schema.data (main_system_prompt schema).data := by
  constructor
  · exact ⟨toPromptPre.data,
      (toPromptMid ++ hint ++ toPromptAfterHint
        ++ String.intercalate "\n" (examples.map FewShotExample.render)
        ++ toPromptEnd).data,
      by simp [SystemPrompt_to_prompt, str_data_append, List.append_assoc]⟩
  · exact ⟨mainSysPre.data, mainSysSuf.data,
      by simp [main_system_prompt, str_data_append, List.append_assoc]⟩

/-- C8, counterexample: a failure of the remote call inside
`expand_and_translate_categories` is not converted to a service-error string —
the function body has no `try`/`except`, so the exception propagates uncaught
to the caller. -/
theorem expand_categories_failure_raises :
    (expand_and_translate_categories "How many beauty products were sold?" "cats"
        (ParseOutcome.raises (PyExc.apiError "timeout"))).result =
      Except.error (PyExc.apiError "timeout") := by
  decide

/-- C8, amended: a failure of the underlying call inside
`expand_and_translate_categories` propagates to the caller as the raised
exception itself (no conversion to a string happens at this layer), and the
call is issued exactly once — it is not retried. -/
theorem expand_categories_failure_propagates (query product_categories : String)
    (e : PyExc) :
    (expand_and_translate_categories query product_categories
        (ParseOutcome.raises e)).result = Except.error e ∧
    (expand_and_translate_categories query product_categories
        (ParseOutcome.raises e)).calls = 1 :=
  ⟨rfl, rfl⟩

/-- C9: `get_few_shot_prompts` is idempotent — any two invocations return
equal sequences — and the sequence is the fixed four-element hardcoded list,
identically ordered on every call. -/
theorem get_few_shot_prompts_idempotent :
    ∀ u v : Unit, get_few_shot_prompts u = get_few_shot_prompts v ∧
      (get_few_shot_prompts u).length = 4 :=
  fun _ _ => ⟨rfl, rfl⟩

/-- C10: for every question of the shape `<text>? <name>:<type>` — where
`<text>` contains no `"? "` and neither `<name>` nor `<type>` contains a
`":"` — the messages sent by `generate_sql_query` quote exactly `<text>`, the
part before the first `"? "`, as the user question (between `userQPre`, which
ends with the opening quote, and `userQSuf`, which begins with the closing
quote), and turn the suffix into the expected-output instruction requiring
column `<name>` of type `<type>`; nothing after the first `"? "` enters the
quoted question slot. -/
theorem user_prompt_quotes_question_prefix (text name typ schema : String)
    (ht : occursIn ['?', ' '] text.data = false)
    (hn : occursIn [':'] name.data = false)
    (hty : occursIn [':'] typ.data = false) :
    generate_sql_messages (text ++ "? " ++ (name ++ ":" ++ typ)) schema =
      some [⟨"system", main_system_prompt schema⟩,
            ⟨"user", userQPre ++ text ++ userQSuf ++ name ++ userTypeMid ++ typ ++ userSuf⟩] := by
  unfold generate_sql_messages
  rw [pySplitOnce_shape _ _ ht]
  dsimp only
  rw [pySplitPair_colon _ _ hn hty]
  rfl

theorem user_prompt_quotes_question_prefix_witness :
    occursIn ['?', ' ']
      (String.data "Which city has the highest average freight value per order") = false ∧
    occursIn [':'] (String.data "[string") = false ∧
    occursIn [':'] (String.data " city_name]") = false ∧
    generate_sql_messages
        ("Which city has the highest average freight value per order" ++ "? "
          ++ ("[string" ++ ":" ++ " city_name]")) "ER_DIAGRAM" =
      some [⟨"system", main_system_prompt "ER_DIAGRAM"⟩,
            ⟨"user", userQPre ++ "Which city has the highest average freight value per order"
              ++ userQSuf ++ "[string" ++ userTypeMid ++ " city_name]" ++ userSuf⟩] :=
  ⟨by decide, by decide, by decide,
   user_prompt_quotes_question_prefix
     "Which city has the highest average freight value per order" "[string" " city_name]"
     "ER_DIAGRAM" (by decide) (by decide) (by decide)⟩
